import Mathlib

/-!
Verification development for the iSuite repository.

The Python sources are shallowly embedded: strings are `List Char`,
process output is a list of lines, machine floats used for durations and
timestamps are modelled as rationals, and the filesystem / subprocess
boundary is passed in explicitly.  Every definition is translated from
the corresponding Python function; deviations forced by the target
language (e.g. a single `now` parameter where Python calls `time.time()`
twice in one function) are noted in the doc comments.
-/

/-- Bool test that `pat` occurs as a contiguous substring of `s`;
models the Python `pat in s` operator on strings. -/
def containsSub (pat s : List Char) : Bool :=
  decide (pat <:+: s)

/-- Models Python `s.lower()` (ASCII case folding suffices for the
keyword sets used by the sources). -/
def lowerStr (s : List Char) : List Char :=
  s.map Char.toLower

/-! ## Output line classification (master_gui_app.py, run_command_async lines 532-541)

The stdout branch of `run_command_async` classifies each line by lowercasing
it and testing keyword substrings: error keywords first, then warning
keywords, and `info` otherwise.  The log-level vocabulary of the file is
`success` / `warning` / `error` / `info`. -/

inductive Severity where
  | success
  | warning
  | error
  | info
deriving DecidableEq

/-- Error keywords tested first in `run_command_async`. -/
def gui_error_words : List (List Char) :=
  (["error", "failed", "exception"] : List String).map String.toList

/-- Warning keywords tested second in `run_command_async`. -/
def gui_warning_words : List (List Char) :=
  (["warning", "deprecated"] : List String).map String.toList

/-- Line classifier of `run_command_async` (master_gui_app.py lines 534-541):
`error` if any error keyword occurs in the lowercased line, else `warning`
if any warning keyword occurs, else `info`. -/
def classify (line : List Char) : Severity :=
  let low := lowerStr line
  if gui_error_words.any (fun w => containsSub w low) then Severity.error
  else if gui_warning_words.any (fun w => containsSub w low) then Severity.warning
  else Severity.info

/-! ## Build history and statistics (master_gui_app.py lines 44-109, 731-736)

`MasterGUIApp` keeps `build_history` (a list of build records) and
`build_stats` (incrementally maintained counters).  `record_build_attempt`
appends a record and updates the counters;
`save_build_history` persists only the last 100 history entries, so a
save/load cycle truncates the in-memory history while keeping the stats
dict unchanged. -/

structure BuildRecord where
  timestamp : ℚ
  command : String
  description : String
  success : Bool
  duration : ℚ
  error_message : Option String
  platform : String
deriving DecidableEq

structure BuildStats where
  total_builds : ℕ
  successful_builds : ℕ
  failed_builds : ℕ
  average_build_time : ℚ
  last_build_time : Option ℚ
deriving DecidableEq

/-- The zeroed statistics dict created in `__init__` (lines 46-52). -/
def initial_stats : BuildStats :=
  { total_builds := 0
    successful_builds := 0
    failed_builds := 0
    average_build_time := 0
    last_build_time := none }

structure GuiState where
  build_history : List BuildRecord
  build_stats : BuildStats
deriving DecidableEq

/-- Fresh application state: empty history, zeroed stats (lines 45-52). -/
def initial_state : GuiState :=
  { build_history := [], build_stats := initial_stats }

/-- Models `_extract_platform_from_command` (lines 111-122). -/
def _extract_platform_from_command (command : String) : String :=
  let c := lowerStr command.toList
  if containsSub ("windows").toList c then ("windows")
  else if containsSub ("android").toList c || containsSub ("apk").toList c then ("android")
  else if containsSub ("ios").toList c then ("ios")
  else if containsSub ("web").toList c then ("web")
  else ("unknown")

/-- Models `record_build_attempt` (master_gui_app.py lines 82-109): append the
record, bump `total_builds` and one of the success/failure counters, then
recompute the average build time as the sum of durations of *successful*
history entries divided by the `successful_builds` counter (only when that
counter is positive).  The two separate `time.time()` calls of the source
(record timestamp, `last_build_time`) are merged into the single `now`
parameter.  The `save_build_history` call at the end only persists state
and is modelled separately by `save_load_truncate`. -/
def record_build_attempt (s : GuiState) (now : ℚ) (command description : String)
    (success : Bool) (duration : ℚ) (error_message : Option String) : GuiState :=
  let build_record : BuildRecord :=
    { timestamp := now
      command := command
      description := description
      success := success
      duration := duration
      error_message := error_message
      platform := _extract_platform_from_command command }
  let build_history := s.build_history ++ [build_record]
  let stats1 : BuildStats :=
    { s.build_stats with
        total_builds := s.build_stats.total_builds + 1
        last_build_time := some now }
  let stats2 : BuildStats :=
    if success then
      { stats1 with successful_builds := stats1.successful_builds + 1 }
    else
      { stats1 with failed_builds := stats1.failed_builds + 1 }
  let total_time : ℚ := ((build_history.filter (fun h => h.success)).map (fun h => h.duration)).sum
  let stats3 : BuildStats :=
    if 0 < stats2.successful_builds then
      { stats2 with average_build_time := total_time / (stats2.successful_builds : ℚ) }
    else stats2
  { build_history := build_history, build_stats := stats3 }

/-- Net in-memory effect of `save_build_history` followed by
`load_build_history` (lines 57-80): the persisted history is
`self.build_history[-100:]` while the stats dict is saved and restored
unchanged. -/
def save_load_truncate (s : GuiState) : GuiState :=
  { s with build_history := s.build_history.drop (s.build_history.length - 100) }

/-- Models `_calculate_success_rate` (lines 731-736). -/
def _calculate_success_rate (s : GuiState) : ℚ :=
  if s.build_stats.total_builds = 0 then 0
  else ((s.build_stats.successful_builds : ℚ) / (s.build_stats.total_builds : ℚ)) * 100

/-- One tuple of arguments for a `record_build_attempt` call. -/
structure AppendInput where
  now : ℚ
  command : String
  description : String
  success : Bool
  duration : ℚ
  error_message : Option String
deriving DecidableEq

/-- Apply one `record_build_attempt` call. -/
def applyInput (s : GuiState) (i : AppendInput) : GuiState :=
  record_build_attempt s i.now i.command i.description i.success i.duration i.error_message

/-- Replay a sequence of `record_build_attempt` calls from the fresh state. -/
def replay (inputs : List AppendInput) : GuiState :=
  inputs.foldl applyInput initial_state

/-- Full fold over a history: total runs, succeeded count, failed count,
average duration over succeeded entries (0 when there are none). -/
def fold_metrics (h : List BuildRecord) : ℕ × ℕ × ℕ × ℚ :=
  let succs := h.filter (fun r => r.success)
  (h.length,
   succs.length,
   (h.filter (fun r => !r.success)).length,
   if 0 < succs.length then (succs.map (fun r => r.duration)).sum / (succs.length : ℚ) else 0)

/-- The incrementally maintained counters agree with the full fold over the
currently retained history entries. -/
def stats_match_fold (s : GuiState) : Prop :=
  (s.build_stats.total_builds, s.build_stats.successful_builds,
   s.build_stats.failed_builds, s.build_stats.average_build_time)
    = fold_metrics s.build_history

instance (s : GuiState) : Decidable (stats_match_fold s) := by
  unfold stats_match_fold
  infer_instance

/-- The build record constructed by `record_build_attempt` for one call. -/
def recordOf (i : AppendInput) : BuildRecord :=
  { timestamp := i.now
    command := i.command
    description := i.description
    success := i.success
    duration := i.duration
    error_message := i.error_message
    platform := _extract_platform_from_command i.command }

/-! ## Enhanced build manager metrics (build_manager_enhanced.py lines 411-435)

`monitor_build_process` updates `self.metrics` when the child process
finishes.  The rolling-average update at lines 430-433 incorporates
`build_time` regardless of whether the run succeeded.  The source statement
is written with an unclosed parenthesis (the file does not parse as
Python); the evident grouping
`(average * (total_builds - 1) + build_time) / total_builds` is modelled.
`total_builds` is incremented earlier in `start_build` (line 338), so it is
at least 1 when this update runs. -/

structure EnhancedMetrics where
  total_builds : ℕ
  successful_builds : ℕ
  failed_builds : ℕ
  average_build_time : ℚ
  last_build_time : Option ℚ
deriving DecidableEq

/-- Completion branch of `monitor_build_process` (lines 415-435): bump the
success or failure counter according to the exit code, then fold
`build_time` into the rolling average unconditionally. -/
def monitor_build_complete (m : EnhancedMetrics) (returncode : Int)
    (build_time : ℚ) : EnhancedMetrics :=
  let m1 : EnhancedMetrics :=
    if returncode = 0 then
      { m with successful_builds := m.successful_builds + 1 }
    else
      { m with failed_builds := m.failed_builds + 1 }
  { m1 with
      last_build_time := some build_time
      average_build_time :=
        (m1.average_build_time * ((m1.total_builds : ℚ) - 1) + build_time)
          / (m1.total_builds : ℚ) }

/-- Replace the duration of a failed append by 0, keeping everything else. -/
def scrub_failed (i : AppendInput) : AppendInput :=
  if i.success then i else { i with duration := 0 }

/-! ## Streaming command execution (isuite_master_app.py, BuildManager.run_flutter_command lines 70-121)

The runner streams the child process output line by line; a run counts as
succeeded only when the exit code is 0 *and* no streamed line matched any
error pattern.  The `error_patterns` dict of `BuildManager.__init__`
(lines 41-47) is flattened here in its insertion order, matching the
`for patterns in self.error_patterns.values() for pattern in patterns`
generator at line 92. -/

def error_patterns : List (List Char) :=
  (["error:", "Error:", "ERROR:",
    "failed:", "Failed:", "FAILED:",
    "permission denied", "Permission denied", "access denied",
    "FlutterError", "flutter:",
    "import error", "ImportError"] : List String).map String.toList

/-- A raw output line matches some error pattern (case-sensitive substring
test, exactly as `pattern in line` at line 92). -/
def line_matches_error_pattern (line : List Char) : Bool :=
  error_patterns.any (fun p => containsSub p line)

/-- Models Python `line.strip()`: whitespace removed from both ends. -/
def pyStrip (line : List Char) : List Char :=
  ((line.dropWhile Char.isWhitespace).reverse.dropWhile Char.isWhitespace).reverse

/-- Accumulator of the streaming loop at lines 84-98: collected output
lines, the sticky `error_detected` flag, and the collected error lines. -/
structure FlutterRunAcc where
  output_lines : List (List Char)
  error_detected : Bool
  error_details : List (List Char)
deriving DecidableEq

/-- One iteration of the `for line in iter(process.stdout.readline, '')`
loop (lines 84-98): empty reads are skipped (`if line:`); otherwise the
stripped line is collected and the error flag is raised when any error
pattern occurs in the raw line. -/
def process_output_line (acc : FlutterRunAcc) (line : List Char) : FlutterRunAcc :=
  if line = [] then acc
  else
    let acc1 : FlutterRunAcc :=
      { acc with output_lines := acc.output_lines ++ [pyStrip line] }
    if line_matches_error_pattern line then
      { acc1 with
          error_detected := true
          error_details := acc1.error_details ++ [pyStrip line] }
    else acc1

/-- Models `run_flutter_command` (lines 70-121) at the process boundary:
given the sequence of raw output lines produced by the child and its exit
code, stream the lines through the detection loop and compute
`success = process.returncode == 0 and not error_detected` (line 103). -/
def run_flutter_command (lines : List (List Char)) (returncode : Int) :
    Bool × FlutterRunAcc :=
  let acc := lines.foldl process_output_line
    { output_lines := [], error_detected := false, error_details := [] }
  (decide (returncode = 0) && !acc.error_detected, acc)

/-! ## Single-flight command runner (build_manager.py, BuildManager.run_command lines 118-145)

`run_command` guards on `self.is_building`: when a build is already in
flight the call shows a "Build in Progress" warning box and returns at once
without spawning anything (lines 120-122); otherwise it sets `is_building`
and spawns the child process in a worker thread. -/

structure RunnerState where
  is_building : Bool
  spawned_processes : ℕ
deriving DecidableEq

inductive RunOutcome where
  | busy
  | started
deriving DecidableEq

/-- Models `BuildManager.run_command` (lines 118-145).  `busy` models the
warning-and-immediate-return path taken when `is_building` is set; the
started path models `is_building = True` plus the `subprocess.Popen` spawn
counted by `spawned_processes`. -/
def run_command (s : RunnerState) : RunOutcome × RunnerState :=
  if s.is_building then (RunOutcome.busy, s)
  else (RunOutcome.started,
    { is_building := true, spawned_processes := s.spawned_processes + 1 })

/-! ## CI/CD analyzer (ci_cd_analyzer.py)

The analyzer works on artifact *content*; reading and writing the files is
the filesystem boundary.  Python `content.split('\n')` and
`'\n'.join(lines)` are modelled by `splitLines` / `joinLines`. -/

/-- Models Python `content.split('\n')` (always returns one more part than
the number of newlines; `''.split('\n') == ['']`). -/
def splitLines : List Char → List (List Char)
  | [] => [[]]
  | c :: cs =>
    if c = '\n' then [] :: splitLines cs
    else
      match splitLines cs with
      | [] => [[c]]
      | l :: ls => (c :: l) :: ls

/-- Models Python `'\n'.join(lines)`. -/
def joinLines : List (List Char) → List Char
  | [] => []
  | [l] => l
  | l :: ls => l ++ '\n' :: joinLines ls

/-- Issue dict as built by the analyzer rules.  `severity` is optional
because the `heavy_dependency` issue (line 357) carries a `lazy` key
instead of a `severity` key; `line` and `file` are the two alternative
location keys used by the rules. -/
structure Issue where
  type : String
  severity : Option String
  lazy : Option String
  description : String
  fix : String
  line : Option ℕ
  file : Option String
deriving DecidableEq

/-- Helper of `find_line_number`: 1-based scan as `enumerate(lines, 1)`. -/
def findLineFrom (pat : List Char) : ℕ → List (List Char) → Option ℕ
  | _, [] => none
  | i, l :: ls => if containsSub pat l then some i else findLineFrom pat (i + 1) ls

/-- Models `find_line_number` (ci_cd_analyzer.py lines 377-383). -/
def find_line_number (content pattern : List Char) : Option ℕ :=
  findLineFrom pattern 1 (splitLines content)

/-- Models `analyze_workflow_structure` (ci_cd_analyzer.py lines 50-97):
four substring checks over the workflow content, each contributing one
typed issue when its pattern is absent, in source order. -/
def analyze_workflow_structure (content : List Char) : List Issue :=
  let issues1 : List Issue :=
    if containsSub ("timeout-minutes:").toList content then []
    else
      [{ type := ("timeout_missing"), severity := some ("medium"), lazy := none,
         description := ("No timeout specified for jobs"),
         fix := ("Add timeout-minutes to all jobs"),
         line := find_line_number content ("jobs:").toList, file := none }]
  let issues2 : List Issue :=
    if containsSub ("cache:").toList content then []
    else
      [{ type := ("cache_missing"), severity := some ("medium"), lazy := none,
         description := ("No caching configured"),
         fix := ("Add Flutter caching to speed up builds"),
         line := find_line_number content ("uses: subosito/flutter-action@v2").toList,
         file := none }]
  let issues3 : List Issue :=
    if containsSub ("continue-on-error:").toList content
        || containsSub ("if: failure()").toList content then []
    else
      [{ type := ("error_handling_missing"), severity := some ("high"), lazy := none,
         description := ("No error handling in workflow"),
         fix := ("Add continue-on-error or proper error handling"),
         line := find_line_number content ("steps:").toList, file := none }]
  let issues4 : List Issue :=
    if containsSub ("uses: actions/upload-artifact@v3").toList content then []
    else
      [{ type := ("artifact_upload_missing"), severity := some ("medium"), lazy := none,
         description := ("No artifact upload configured"),
         fix := ("Add artifact upload for build results"),
         line := find_line_number content ("flutter build").toList, file := none }]
  issues1 ++ issues2 ++ issues3 ++ issues4

/-- The line inserted by `fix_timeout_missing` (line 453). -/
def timeout_minutes_line : List Char := ("    timeout-minutes: 30").toList

/-- The per-line trigger of `fix_timeout_missing` (line 452):
`'jobs:' in line or 'steps:' in line`. -/
def jsCond (l : List Char) : Bool :=
  containsSub ("jobs:").toList l || containsSub ("steps:").toList l

/-- Line-level transformation of `fix_timeout_missing` (lines 448-458):
after every line containing `jobs:` or `steps:` an indented
`timeout-minutes: 30` line is inserted. -/
def fixTimeoutLines : List (List Char) → List (List Char)
  | [] => []
  | l :: ls =>
    if jsCond l then l :: timeout_minutes_line :: fixTimeoutLines ls
    else l :: fixTimeoutLines ls

/-- Models `fix_timeout_missing` (ci_cd_analyzer.py lines 437-463) as the
content transformation it performs between reading and writing the
workflow file: split into lines, insert the timeout line after each
`jobs:` / `steps:` line, join with newlines. -/
def fix_timeout_missing (content : List Char) : List Char :=
  joinLines (fixTimeoutLines (splitLines content))

/-- Content has some line that triggers the timeout insertion. -/
def hasJobsStepsLine (content : List Char) : Bool :=
  (splitLines content).any jsCond

/-- Number of issues in a report naming a given rule. -/
def count_issues_with_rule (issues : List Issue) (rule : String) : ℕ :=
  issues.countP (fun i => i.type == rule)

/-! ## Analyzer pipeline and rule failures (ci_cd_analyzer.py lines 29-48, 99-374)

`analyze_ci_cd_failure` runs the six rule methods in sequence with *no*
try/except around them, so an exception inside a rule propagates to the
caller.  The filesystem and subprocess boundary is passed in as
`AnalyzerEnv`: file contents as `Option` (absent file = `none`), each
guarded `subprocess.run` as a `Subproc` outcome (`raised` models the
`except Exception` path of its surrounding try block), and the dart-file
regex scan of `analyze_security_issues` as the list of per-(file, pattern)
hits it produces.  Source description strings containing quote characters
are reproduced without the quotes.  `analyze_performance_issues`
(lines 333-374) reads `content` at line 365 outside the
`if pubspec_path.exists():` branch that assigns it, so a missing
pubspec.yaml raises `NameError: content`. -/

inductive PyErr where
  | nameError (name : String)
deriving DecidableEq

inductive Subproc where
  | raised (message : String)
  | ran (returncode : Int) (stdout : List Char)
deriving DecidableEq

structure AnalyzerEnv where
  workflow : Option (List Char)
  pubspec : Option (List Char)
  test_dir_exists : Bool
  test_files_count : ℕ
  integration_test_exists : Bool
  sensitive_hits : List String
  pub_outdated : Subproc
  pub_deps : Subproc
  test_coverage : Subproc
deriving DecidableEq

/-- Models Python `s.count(pat)` (non-overlapping substring count). -/
def pyCount (pat s : List Char) : ℕ :=
  if hp : pat = [] then s.length + 1
  else
    match s with
    | [] => 0
    | c :: rest =>
      if pat <+: (c :: rest) then 1 + pyCount pat (List.drop pat.length (c :: rest))
      else pyCount pat rest
termination_by s.length
decreasing_by
  · simp only [List.length_drop]
    have hlen : 0 < pat.length := List.length_pos.mpr hp
    simp only [List.length_cons]
    omega
  · simp [List.length_cons]

/-- Models `analyze_dependency_issues` (lines 99-150): sdk-constraint check
plus the guarded `flutter pub outdated` probe whose exception path degrades
to a single low-severity `dependency_check_failed` issue. -/
def analyze_dependency_issues (env : AnalyzerEnv) : List Issue :=
  match env.pubspec with
  | none => []
  | some content =>
    let issues1 : List Issue :=
      if containsSub ("sdk:").toList content then []
      else
        [{ type := ("sdk_constraint_missing"), severity := some ("high"), lazy := none,
           description := ("No SDK version constraint"),
           fix := ("Add sdk: >=2.17.0 <4.0.0 to pubspec.yaml"), line := none,
           file := some ("pubspec.yaml") }]
    let issues2 : List Issue :=
      match env.pub_outdated with
      | Subproc.ran rc out =>
        if rc = 0 then
          let outdated_deps := pyCount ("outdated").toList out
          if 0 < outdated_deps then
            [{ type := ("outdated_dependencies"), severity := some ("medium"), lazy := none,
               description := toString outdated_deps ++ (" outdated dependencies"),
               fix := ("Run flutter pub upgrade to update dependencies"), line := none,
               file := some ("pubspec.yaml") }]
          else []
        else []
      | Subproc.raised msg =>
        [{ type := ("dependency_check_failed"), severity := some ("low"), lazy := none,
           description := ("Failed to check dependencies: ") ++ msg,
           fix := ("Ensure Flutter SDK is properly installed"), line := none,
           file := some ("pubspec.yaml") }]
    issues1 ++ issues2

/-- Models `analyze_build_issues` (lines 152-195). -/
def analyze_build_issues (env : AnalyzerEnv) : List Issue :=
  match env.pubspec with
  | none => []
  | some content =>
    (if containsSub ("flutter_lints:").toList content then []
     else
       [{ type := ("linting_missing"), severity := some ("low"), lazy := none,
          description := ("No linting rules configured"),
          fix := ("Add flutter_lints to dev_dependencies"), line := none,
          file := some ("pubspec.yaml") }])
    ++ (if containsSub ("flutter_test:").toList content then []
        else
          [{ type := ("test_dependencies_missing"), severity := some ("medium"), lazy := none,
             description := ("No test dependencies configured"),
             fix := ("Add flutter_test to dev_dependencies"), line := none,
             file := some ("pubspec.yaml") }])
    ++ (if !containsSub ("build_runner:").toList content
           && containsSub ("json_serializable:").toList content then
          [{ type := ("build_runner_missing"), severity := some ("medium"), lazy := none,
             description := ("json_serializable requires build_runner"),
             fix := ("Add build_runner to dev_dependencies"), line := none,
             file := some ("pubspec.yaml") }]
        else [])

/-- Models `analyze_test_issues` (lines 197-262): directory checks plus the
guarded coverage run whose exception path degrades to a single low-severity
`test_coverage_check_failed` issue. -/
def analyze_test_issues (env : AnalyzerEnv) : List Issue :=
  (if env.test_dir_exists then
     (if env.test_files_count = 0 then
        [{ type := ("no_test_files"), severity := some ("high"), lazy := none,
           description := ("No test files found in test directory"),
           fix := ("Add unit tests to test directory"), line := none,
           file := some ("test/") }]
      else [])
   else
     [{ type := ("test_directory_missing"), severity := some ("high"), lazy := none,
        description := ("No test directory found"),
        fix := ("Create test directory with unit tests"), line := none,
        file := some ("test/") }])
  ++ (if env.integration_test_exists then []
      else
        [{ type := ("integration_test_missing"), severity := some ("medium"), lazy := none,
           description := ("No integration test directory"),
           fix := ("Create integration_test directory with integration tests"),
           line := none, file := some ("integration_test/") }])
  ++ (match env.test_coverage with
      | Subproc.ran rc _ =>
        if rc ≠ 0 then
          [{ type := ("test_coverage_failed"), severity := some ("medium"), lazy := none,
             description := ("Test coverage check failed"),
             fix := ("Fix failing tests and ensure proper coverage"), line := none,
             file := some ("test/") }]
        else []
      | Subproc.raised msg =>
        [{ type := ("test_coverage_check_failed"), severity := some ("low"), lazy := none,
           description := ("Failed to check test coverage: ") ++ msg,
           fix := ("Ensure Flutter SDK is properly installed"), line := none,
           file := some ("test/") }])

def vulnerable_packages : List String := ["http: ^0.13.5", "path: ^1.8.3"]

/-- Models `analyze_security_issues` (lines 264-331): one issue per
sensitive-pattern hit, plus the guarded `flutter pub deps` probe whose
exception path degrades to a single low-severity
`dependency_security_check_failed` issue. -/
def analyze_security_issues (env : AnalyzerEnv) : List Issue :=
  (env.sensitive_hits.map (fun f =>
    { type := ("sensitive_data_found"), severity := some ("high"), lazy := none,
      description := ("Sensitive data pattern found in ") ++ f,
      fix := ("Remove or secure sensitive data"), line := none, file := some f }))
  ++ (match env.pub_deps with
      | Subproc.ran rc out =>
        if rc = 0 then
          (vulnerable_packages.filter (fun p => containsSub p.toList out)).map (fun p =>
            { type := ("vulnerable_dependency"), severity := some ("high"), lazy := none,
              description := ("Vulnerable dependency: ") ++ p,
              fix := ("Update to a newer version of ") ++ p, line := none,
              file := some ("pubspec.yaml") })
        else []
      | Subproc.raised msg =>
        [{ type := ("dependency_security_check_failed"), severity := some ("low"), lazy := none,
           description := ("Failed to check dependencies: ") ++ msg,
           fix := ("Ensure Flutter SDK is properly installed"), line := none,
           file := some ("pubspec.yaml") }])

def heavy_packages : List String :=
  ["firebase_core", "google_maps_flutter", "camera", "video_player"]

/-- Models `analyze_performance_issues` (lines 333-374).  When pubspec.yaml
is absent the branch defining `content` is skipped, yet line 365 still
evaluates `'cached_network_image:' not in content`, raising
`NameError: content` — modelled as the error outcome.  The
`heavy_dependency` issue dict carries a `lazy` key where the other rules
put `severity` (source line 357). -/
def analyze_performance_issues (env : AnalyzerEnv) : Except PyErr (List Issue) :=
  match env.pubspec with
  | none => Except.error (PyErr.nameError ("content"))
  | some content =>
    let issues1 : List Issue :=
      (heavy_packages.filter (fun p => containsSub p.toList content)).map (fun p =>
        { type := ("heavy_dependency"), severity := none, lazy := some ("medium"),
          description := ("Heavy dependency: ") ++ p,
          fix := ("Consider lazy loading or alternatives"), line := none,
          file := some ("pubspec.yaml") })
    let issues2 : List Issue :=
      if !containsSub ("cached_network_image:").toList content
          && containsSub ("http:").toList content then
        [{ type := ("image_caching_missing"), severity := some ("medium"), lazy := none,
           description := ("HTTP requests without caching"),
           fix := ("Add cached_network_image for HTTP requests"), line := none,
           file := some ("pubspec.yaml") }]
      else []
    Except.ok (issues1 ++ issues2)

/-- Models `analyze_ci_cd_failure` (ci_cd_analyzer.py lines 29-48): early
error-dict return when the workflow path does not exist (modelled as the
`Option String` error field of the report), then the six rules in source
order with no exception handling between them — an exception raised by a
rule escapes the pipeline. -/
def analyze_ci_cd_failure (env : AnalyzerEnv) :
    Except PyErr (Option String × List Issue) :=
  match env.workflow with
  | none => Except.ok (some ("Workflow file not found"), [])
  | some content =>
    let s1 := analyze_workflow_structure content
    let s2 := analyze_dependency_issues env
    let s3 := analyze_build_issues env
    let s4 := analyze_test_issues env
    let s5 := analyze_security_issues env
    match analyze_performance_issues env with
    | Except.error e => Except.error e
    | Except.ok s6 => Except.ok (none, s1 ++ s2 ++ s3 ++ s4 ++ s5 ++ s6)

/-! ## Quality report status (build_optimizer_enhanced.py, generate_report lines 761-800)

`CheckStatus` is the four-value enum at lines 18-22; `generate_report`
counts results per status and derives the overall status at line 783 as
`'PASS' if error_count == 0 else 'FAIL' if error_count > 10 else 'WARNING'`.
Caveats recorded for the claim: the file as a whole does not parse as
Python (line 317 reads `self sync_get_lib_path()`), and line 768 computes
`info_count` from an undefined name `r`, so the status expression below is
the modelled line-783 term. -/

inductive CheckStatus where
  | success
  | warning
  | error
  | info
deriving DecidableEq

/-- The overall-status expression of `generate_report` (line 783), applied
to the statuses of `self.results`. -/
def report_status (results : List CheckStatus) : String :=
  let error_count := (results.filter (fun r => r = CheckStatus.error)).length
  if error_count = 0 then ("PASS")
  else if error_count > 10 then ("FAIL")
  else ("WARNING")

/-- Follows the spec sentence of the claim (overall status `fail` if any
error-severity issue exists, else `warn` if any warning-severity issue
exists, else `pass`), rendered in the code vocabulary PASS / WARNING /
FAIL for comparison with `report_status`. -/
def claimed_report_status (results : List CheckStatus) : String :=
  if results.any (fun r => r = CheckStatus.error) then ("FAIL")
  else if results.any (fun r => r = CheckStatus.warning) then ("WARNING")
  else ("PASS")

theorem containsSub_iff (pat s : List Char) :
    containsSub pat s = true ↔ pat <:+: s := by
  simp [containsSub]

theorem applyInput_spec (s : GuiState) (i : AppendInput) :
    applyInput s i =
      { build_history := s.build_history ++ [recordOf i]
        build_stats :=
          { total_builds := s.build_stats.total_builds + 1
            successful_builds := s.build_stats.successful_builds + (if i.success then 1 else 0)
            failed_builds := s.build_stats.failed_builds + (if i.success then 0 else 1)
            average_build_time :=
              if 0 < s.build_stats.successful_builds + (if i.success then 1 else 0) then
                (((s.build_history ++ [recordOf i]).filter (fun h => h.success)).map
                    (fun h => h.duration)).sum
                  / (((s.build_stats.successful_builds + (if i.success then 1 else 0) : ℕ)) : ℚ)
              else s.build_stats.average_build_time
            last_build_time := some i.now } } := by
  unfold applyInput record_build_attempt recordOf
  cases hs : i.success with
  | true => simp [hs]
  | false =>
    simp only [hs, Bool.false_eq_true, if_false, ite_false, Nat.add_zero]
    split_ifs <;> simp

theorem applyInput_preserves_fold (s : GuiState) (i : AppendInput)
    (h : stats_match_fold s) : stats_match_fold (applyInput s i) := by
  unfold stats_match_fold fold_metrics at h ⊢
  simp only [Prod.mk.injEq] at h ⊢
  obtain ⟨h1, h2, h3, h4⟩ := h
  rw [applyInput_spec]
  cases hs : i.success with
  | true =>
    simp only [hs, if_true, ite_true, List.filter_append, List.filter_cons, List.filter_nil,
      List.length_append, recordOf, Bool.not_true, List.length_cons, List.length_nil,
      List.append_nil]
    refine ⟨?_, ?_, ?_, ?_⟩
    · simpa using h1
    · simp [h2]
    · simp [h3]
    · simp only [h2]
      rw [if_pos (Nat.succ_pos _), if_pos (Nat.succ_pos _)]
  | false =>
    simp only [hs, Bool.false_eq_true, if_false, ite_false, Nat.add_zero,
      List.filter_append, List.filter_cons, List.filter_nil, List.length_append,
      recordOf, Bool.not_false, ite_true, List.length_cons, List.length_nil,
      List.append_nil]
    refine ⟨?_, ?_, ?_, ?_⟩
    · simpa using h1
    · simpa using h2
    · simp [h3]
    · by_cases hpos : 0 < (s.build_history.filter (fun r => r.success)).length
      · rw [if_pos (by simpa [h2] using hpos)]
        rw [if_pos (by simpa using hpos)]
        simp [h2]
      · rw [if_neg (by simpa [h2] using hpos)]
        rw [if_neg (by simpa using hpos)]
        rw [h4, if_neg hpos]

theorem foldl_applyInput_history (inputs : List AppendInput) :
    ∀ s : GuiState, (inputs.foldl applyInput s).build_history
      = s.build_history ++ inputs.map recordOf := by
  induction inputs with
  | nil => intro s; simp
  | cons i is ih =>
    intro s
    rw [List.foldl_cons, ih, applyInput_spec]
    simp

theorem replay_history (inputs : List AppendInput) :
    (replay inputs).build_history = inputs.map recordOf := by
  unfold replay initial_state
  rw [foldl_applyInput_history]
  simp

theorem foldl_applyInput_fold (inputs : List AppendInput) :
    ∀ s : GuiState, stats_match_fold s → stats_match_fold (inputs.foldl applyInput s) := by
  induction inputs with
  | nil => intro s hs; exact hs
  | cons i is ih =>
    intro s hs
    exact ih _ (applyInput_preserves_fold s i hs)

theorem stats_match_fold_replay (inputs : List AppendInput) :
    stats_match_fold (replay inputs) := by
  have base : stats_match_fold initial_state := by decide
  exact foldl_applyInput_fold inputs initial_state base

theorem filter_split_length (l : List BuildRecord) :
    (l.filter (fun r => r.success)).length + (l.filter (fun r => !r.success)).length
      = l.length := by
  induction l with
  | nil => rfl
  | cons a t ih =>
    cases ha : a.success <;> simp [List.filter_cons, ha] <;> omega

/-- C1: COUNTEREXAMPLE.  After 101 appends the save/load truncation keeps only
the last 100 history entries while the stats dict keeps the all-time counters,
so the incrementally maintained metrics no longer equal a fold over the
retained entries (total_builds is 101 but only 100 entries remain). -/
theorem metrics_diverge_after_truncation :
    ¬ stats_match_fold (save_load_truncate (replay (List.replicate 101
      ({ now := 0, command := ("flutter build windows"), description := ("Build"),
         success := true, duration := 1, error_message := none } : AppendInput)))) := by
  intro h
  set i0 : AppendInput :=
    { now := 0, command := ("flutter build windows"), description := ("Build"),
      success := true, duration := 1, error_message := none } with hi0
  have hrep := stats_match_fold_replay (List.replicate 101 i0)
  have hlen : (replay (List.replicate 101 i0)).build_history.length = 101 := by
    rw [replay_history]
    simp
  unfold stats_match_fold fold_metrics at h hrep
  simp only [Prod.mk.injEq] at h hrep
  obtain ⟨ht, _, _, _⟩ := h
  obtain ⟨ht2, _, _, _⟩ := hrep
  have hstats : (save_load_truncate (replay (List.replicate 101 i0))).build_stats
      = (replay (List.replicate 101 i0)).build_stats := by
    simp [save_load_truncate]
  rw [hstats] at ht
  have hdrop : (save_load_truncate (replay (List.replicate 101 i0))).build_history.length
      = 100 := by
    simp only [save_load_truncate, List.length_drop, hlen]
  rw [hdrop] at ht
  rw [hlen] at ht2
  omega

/-- C1 (amended): as long as no save/load truncation has occurred, the
incrementally maintained metrics (total runs, succeeded count, failed count,
average duration over succeeded runs) of `record_build_attempt` equal the
full fold recomputed over the history for every sequence of appends from the
fresh state; the divergence arises only once the history is truncated to the
100-entry retention limit while the counters retain their all-time values. -/
theorem metrics_equal_fold_before_truncation (inputs : List AppendInput) :
    stats_match_fold (replay inputs) :=
  stats_match_fold_replay inputs

/-- C10: each `record_build_attempt` call increments `total_builds` by exactly
one and exactly one of `successful_builds` / `failed_builds` by one, so for
every sequence of appends from the zeroed statistics the invariant
`successful_builds + failed_builds = total_builds` holds and
`_calculate_success_rate` lies in [0, 100]. -/
theorem record_build_attempt_counter_invariant :
    (∀ (s : GuiState) (i : AppendInput),
      (applyInput s i).build_stats.total_builds = s.build_stats.total_builds + 1
      ∧ (applyInput s i).build_stats.successful_builds
          = s.build_stats.successful_builds + (if i.success then 1 else 0)
      ∧ (applyInput s i).build_stats.failed_builds
          = s.build_stats.failed_builds + (if i.success then 0 else 1))
    ∧ (∀ inputs : List AppendInput,
      (replay inputs).build_stats.successful_builds
          + (replay inputs).build_stats.failed_builds
        = (replay inputs).build_stats.total_builds
      ∧ 0 ≤ _calculate_success_rate (replay inputs)
      ∧ _calculate_success_rate (replay inputs) ≤ 100) := by
  constructor
  · intro s i
    rw [applyInput_spec]
    exact ⟨rfl, rfl, rfl⟩
  · intro inputs
    have hrep := stats_match_fold_replay inputs
    unfold stats_match_fold fold_metrics at hrep
    simp only [Prod.mk.injEq] at hrep
    obtain ⟨h1, h2, h3, _⟩ := hrep
    have hsum : (replay inputs).build_stats.successful_builds
        + (replay inputs).build_stats.failed_builds
        = (replay inputs).build_stats.total_builds := by
      rw [h1, h2, h3]
      exact filter_split_length _
    refine ⟨hsum, ?_, ?_⟩
    · unfold _calculate_success_rate
      split
      · exact le_refl 0
      · positivity
    · unfold _calculate_success_rate
      split
      · norm_num
      · rename_i htot
        have hle : (replay inputs).build_stats.successful_builds
            ≤ (replay inputs).build_stats.total_builds := by omega
        have hposq : (0 : ℚ) < ((replay inputs).build_stats.total_builds : ℚ) := by
          have : 0 < (replay inputs).build_stats.total_builds := Nat.pos_of_ne_zero htot
          exact_mod_cast this
        have hdiv : ((replay inputs).build_stats.successful_builds : ℚ)
            / ((replay inputs).build_stats.total_builds : ℚ) ≤ 1 := by
          rw [div_le_one hposq]
          exact_mod_cast hle
        calc ((replay inputs).build_stats.successful_builds : ℚ)
              / ((replay inputs).build_stats.total_builds : ℚ) * 100
            ≤ 1 * 100 := by
              apply mul_le_mul_of_nonneg_right hdiv
              norm_num
          _ = 100 := by norm_num

/-- C5: COUNTEREXAMPLE.  In `build_manager_enhanced.monitor_build_process`
the duration of a failed run does contribute to the rolling average: a
2nd build that fails instantly (exit code 1, duration 0) drags a previous
average of 10 seconds down to 5. -/
theorem failed_duration_changes_enhanced_average :
    (monitor_build_complete
        { total_builds := 2, successful_builds := 1, failed_builds := 0,
          average_build_time := 10, last_build_time := none } 1 0).average_build_time
      = 5
    ∧ (monitor_build_complete
        { total_builds := 2, successful_builds := 1, failed_builds := 0,
          average_build_time := 10, last_build_time := none } 1 0).average_build_time
      ≠ 10 := by
  constructor
  · norm_num [monitor_build_complete]
  · norm_num [monitor_build_complete]

theorem scrub_filter_map (l : List AppendInput) :
    (((l.map scrub_failed).map recordOf).filter (fun r => r.success)).map
        (fun r => r.duration)
      = ((l.map recordOf).filter (fun r => r.success)).map (fun r => r.duration) := by
  induction l with
  | nil => rfl
  | cons i t ih =>
    cases hi : i.success with
    | true =>
      have hscrub : scrub_failed i = i := by simp [scrub_failed, hi]
      have hsucc : (recordOf i).success = true := by simp [recordOf, hi]
      simp only [List.map_cons, hscrub, List.filter_cons, hsucc, ite_true, if_true]
      rw [ih]
    | false =>
      have h1 : (recordOf (scrub_failed i)).success = false := by
        simp [scrub_failed, recordOf, hi]
      have h2 : (recordOf i).success = false := by simp [recordOf, hi]
      simp only [List.map_cons, List.filter_cons, h1, h2, Bool.false_eq_true,
        if_false, ite_false]
      exact ih

/-- C5 (amended): in `master_gui_app.record_build_attempt` the average build
time is computed over succeeded runs only — zeroing the durations of all
failed appends leaves the resulting average unchanged for every append
sequence; it is `build_manager_enhanced.monitor_build_process` whose rolling
average also absorbs the durations of failed runs (see the counterexample). -/
theorem gui_average_ignores_failed_durations (inputs : List AppendInput) :
    (replay (inputs.map scrub_failed)).build_stats.average_build_time
      = (replay inputs).build_stats.average_build_time := by
  have h1 := stats_match_fold_replay (inputs.map scrub_failed)
  have h2 := stats_match_fold_replay inputs
  unfold stats_match_fold fold_metrics at h1 h2
  simp only [Prod.mk.injEq] at h1 h2
  obtain ⟨_, _, _, ha1⟩ := h1
  obtain ⟨_, _, _, ha2⟩ := h2
  rw [ha1, ha2, replay_history, replay_history]
  have hmap := scrub_filter_map inputs
  have hlen : (((inputs.map scrub_failed).map recordOf).filter (fun r => r.success)).length
      = ((inputs.map recordOf).filter (fun r => r.success)).length := by
    have := congrArg List.length hmap
    simpa using this
  rw [hmap, hlen]

theorem line_matches_nil : line_matches_error_pattern [] = false := by decide

theorem process_output_line_error (acc : FlutterRunAcc) (line : List Char) :
    (process_output_line acc line).error_detected
      = (acc.error_detected || line_matches_error_pattern line) := by
  unfold process_output_line
  by_cases hnil : line = []
  · simp [hnil, line_matches_nil]
  · simp only [hnil, if_false, ite_false]
    by_cases hm : line_matches_error_pattern line
    · simp [hm]
    · simp [hm]

theorem foldl_error_detected (lines : List (List Char)) :
    ∀ acc : FlutterRunAcc,
      (lines.foldl process_output_line acc).error_detected
        = (acc.error_detected || lines.any line_matches_error_pattern) := by
  induction lines with
  | nil => intro acc; simp
  | cons l ls ih =>
    intro acc
    rw [List.foldl_cons, ih, List.any_cons, process_output_line_error]
    cases acc.error_detected <;> simp

/-- C2: a run is recorded as succeeded iff the exit code is 0 and no raw
output line matched an error pattern; in particular a command that prints
`error: something broke` and exits 0 is recorded as failed (error-line
override of the exit code). -/
theorem run_flutter_command_success_iff :
    (∀ (lines : List (List Char)) (returncode : Int),
      (run_flutter_command lines returncode).1 = true
        ↔ (returncode = 0 ∧ ∀ l ∈ lines, line_matches_error_pattern l = false))
    ∧ (run_flutter_command [("error: something broke").toList] 0).1 = false := by
  constructor
  · intro lines returncode
    unfold run_flutter_command
    simp only [foldl_error_detected]
    simp [List.any_eq_false]
  · decide

/-- C2 witness: a clean run (exit code 0, no error line) is recorded as
succeeded, via the main theorem applied at a concrete input. -/
theorem run_flutter_command_success_iff_witness :
    (run_flutter_command [("Built build/app.apk").toList] 0).1 = true :=
  (run_flutter_command_success_iff.1 [("Built build/app.apk").toList] 0).mpr (by decide)

/-- C3: `classify` is a total deterministic function whose value always lies
in the severity vocabulary, with `info` as the default, and the error
keywords are tested before the warning keywords (first match wins), so a
line containing both an error keyword and a warning keyword classifies as
`error`.  Totality and determinism are inherent in the embedding as a pure
function; the conjuncts pin down the first-match-wins order. -/
theorem classify_first_match_wins :
    (∀ line : List Char,
      classify line = Severity.error ∨ classify line = Severity.warning
        ∨ classify line = Severity.info)
    ∧ (∀ line : List Char,
      gui_error_words.any (fun w => containsSub w (lowerStr line)) = true →
        classify line = Severity.error)
    ∧ (∀ line : List Char,
      gui_error_words.any (fun w => containsSub w (lowerStr line)) = false →
      gui_warning_words.any (fun w => containsSub w (lowerStr line)) = true →
        classify line = Severity.warning)
    ∧ (∀ line : List Char,
      gui_error_words.any (fun w => containsSub w (lowerStr line)) = false →
      gui_warning_words.any (fun w => containsSub w (lowerStr line)) = false →
        classify line = Severity.info)
    ∧ classify ("Error: use of deprecated API (warning)").toList = Severity.error := by
  refine ⟨?_, ?_, ?_, ?_, by decide⟩
  · intro line
    unfold classify
    dsimp only
    split
    · exact Or.inl rfl
    · split
      · exact Or.inr (Or.inl rfl)
      · exact Or.inr (Or.inr rfl)
  · intro line he
    unfold classify
    simp [he]
  · intro line he hw
    unfold classify
    simp [he, hw]
  · intro line he hw
    unfold classify
    simp [he, hw]

/-- C3 witness: the implication conjuncts of the main theorem applied at
concrete lines, hypotheses discharged by evaluation. -/
theorem classify_first_match_wins_witness :
    classify ("error while parsing warning list").toList = Severity.error
    ∧ classify ("warning: deprecated symbol").toList = Severity.warning
    ∧ classify ("Building windows application...").toList = Severity.info :=
  ⟨classify_first_match_wins.2.1 (("error while parsing warning list").toList) (by decide),
   classify_first_match_wins.2.2.1 (("warning: deprecated symbol").toList) (by decide) (by decide),
   classify_first_match_wins.2.2.2.1 (("Building windows application...").toList) (by decide) (by decide)⟩

/-- C4: invoking `run_command` while a run is in flight on the same instance
is rejected immediately (busy outcome), spawns no second process, and leaves
the runner state — including the first run — untouched. -/
theorem run_command_single_flight (s : RunnerState) (h : s.is_building = true) :
    run_command s = (RunOutcome.busy, s)
    ∧ (run_command s).2.spawned_processes = s.spawned_processes := by
  unfold run_command
  rw [if_pos h]
  exact ⟨rfl, rfl⟩

/-- C4 witness: the single-flight theorem applied at a concrete busy state. -/
theorem run_command_single_flight_witness :
    run_command { is_building := true, spawned_processes := 1 }
      = (RunOutcome.busy, { is_building := true, spawned_processes := 1 }) :=
  (run_command_single_flight { is_building := true, spawned_processes := 1 } rfl).1

theorem splitLines_ne_nil (c : List Char) : splitLines c ≠ [] := by
  cases c with
  | nil => simp [splitLines]
  | cons a cs =>
    unfold splitLines
    by_cases ha : a = '\n'
    · simp [ha]
    · simp only [ha, if_false, ite_false]
      cases splitLines cs <;> simp

theorem joinLines_cons_cons (a b : List Char) (t : List (List Char)) :
    joinLines (a :: b :: t) = a ++ '\n' :: joinLines (b :: t) := rfl

theorem joinLines_splitLines (c : List Char) : joinLines (splitLines c) = c := by
  induction c with
  | nil => rfl
  | cons a cs ih =>
    unfold splitLines
    by_cases ha : a = '\n'
    · simp only [ha, if_true, ite_true]
      rcases hsl : splitLines cs with _ | ⟨l, ls⟩
      · exact absurd hsl (splitLines_ne_nil cs)
      · rw [joinLines_cons_cons]
        rw [hsl] at ih
        rw [ih]
        simp
    · simp only [ha, if_false, ite_false]
      rcases hsl : splitLines cs with _ | ⟨l, ls⟩
      · exact absurd hsl (splitLines_ne_nil cs)
      · rw [hsl] at ih
        cases ls with
        | nil =>
          have : joinLines [l] = l := rfl
          rw [this] at ih
          show a :: l = a :: cs
          rw [ih]
        | cons b t =>
          rw [joinLines_cons_cons] at ih ⊢
          show (a :: l) ++ '\n' :: joinLines (b :: t) = a :: cs
          rw [List.cons_append, ih]

theorem mem_splitLines_no_newline (c : List Char) :
    ∀ l ∈ splitLines c, '\n' ∉ l := by
  induction c with
  | nil =>
    intro l hl
    simp [splitLines] at hl
    simp [hl]
  | cons a cs ih =>
    intro l hl
    unfold splitLines at hl
    by_cases ha : a = '\n'
    · simp only [ha, if_true, ite_true, List.mem_cons] at hl
      rcases hl with rfl | hl
      · simp
      · exact ih l hl
    · simp only [ha, if_false, ite_false] at hl
      rcases hsl : splitLines cs with _ | ⟨l0, ls⟩
      · exact absurd hsl (splitLines_ne_nil cs)
      · rw [hsl] at hl
        rcases List.mem_cons.mp hl with rfl | hmem
        · intro hcontra
          rcases List.mem_cons.mp hcontra with h1 | h2
          · exact ha h1.symm
          · exact ih l0 (by rw [hsl]; exact List.mem_cons_self l0 ls) h2
        · exact ih l (by rw [hsl]; exact List.mem_cons_of_mem l0 hmem)

theorem splitLines_of_no_newline (l : List Char) (h : '\n' ∉ l) :
    splitLines l = [l] := by
  induction l with
  | nil => rfl
  | cons a cs ih =>
    have ha : a ≠ '\n' := by
      intro hcontra
      exact h (by rw [hcontra]; exact List.mem_cons_self _ _)
    have hcs : '\n' ∉ cs := fun hc => h (List.mem_cons_of_mem a hc)
    unfold splitLines
    simp only [ha, if_false, ite_false]
    rw [ih hcs]

theorem splitLines_append_newline (l X : List Char) (h : '\n' ∉ l) :
    splitLines (l ++ '\n' :: X) = l :: splitLines X := by
  induction l with
  | nil => simp [splitLines]
  | cons a cs ih =>
    have ha : a ≠ '\n' := by
      intro hcontra
      exact h (by rw [hcontra]; exact List.mem_cons_self _ _)
    have hcs : '\n' ∉ cs := fun hc => h (List.mem_cons_of_mem a hc)
    rw [List.cons_append]
    simp only [splitLines, ha, if_false, ite_false]
    rw [ih hcs]

theorem splitLines_joinLines (ls : List (List Char)) (hnl : ∀ l ∈ ls, '\n' ∉ l)
    (hne : ls ≠ []) : splitLines (joinLines ls) = ls := by
  induction ls with
  | nil => exact absurd rfl hne
  | cons l t ih =>
    cases t with
    | nil =>
      have : joinLines [l] = l := rfl
      rw [this]
      exact splitLines_of_no_newline l (hnl l (List.mem_cons_self _ _))
    | cons b t2 =>
      rw [joinLines_cons_cons]
      rw [splitLines_append_newline _ _ (hnl l (List.mem_cons_self _ _))]
      rw [ih (fun x hx => hnl x (List.mem_cons_of_mem l hx)) (by simp)]

theorem jsCond_timeout_line : jsCond timeout_minutes_line = false := by decide

theorem timeout_line_no_newline : '\n' ∉ timeout_minutes_line := by decide

theorem fixTimeoutLines_length (ls : List (List Char)) :
    (fixTimeoutLines ls).length = ls.length + ls.countP jsCond := by
  induction ls with
  | nil => rfl
  | cons l t ih =>
    unfold fixTimeoutLines
    by_cases hl : jsCond l
    · simp only [hl, if_true, ite_true, List.length_cons, List.countP_cons, ih]
      omega
    · simp only [hl, if_false, ite_false, List.length_cons, List.countP_cons, ih]
      simp [hl]
      omega

theorem fixTimeoutLines_countP (ls : List (List Char)) :
    (fixTimeoutLines ls).countP jsCond = ls.countP jsCond := by
  induction ls with
  | nil => rfl
  | cons l t ih =>
    unfold fixTimeoutLines
    by_cases hl : jsCond l
    · simp [List.countP_cons, hl, jsCond_timeout_line, ih]
    · simp [List.countP_cons, hl, ih]

theorem fixTimeoutLines_id_of_no_trigger (ls : List (List Char))
    (h : ls.any jsCond = false) : fixTimeoutLines ls = ls := by
  induction ls with
  | nil => rfl
  | cons l t ih =>
    rw [List.any_cons] at h
    have hl : jsCond l = false := by
      cases hj : jsCond l
      · rfl
      · rw [hj] at h; simp at h
    have ht : t.any jsCond = false := by
      cases hj : t.any jsCond
      · rfl
      · rw [hj] at h; simp at h
    unfold fixTimeoutLines
    simp [hl, ih ht]

theorem fixTimeoutLines_no_newline (ls : List (List Char))
    (h : ∀ l ∈ ls, '\n' ∉ l) : ∀ l ∈ fixTimeoutLines ls, '\n' ∉ l := by
  induction ls with
  | nil => intro l hl; simp [fixTimeoutLines] at hl
  | cons a t ih =>
    intro l hl
    unfold fixTimeoutLines at hl
    by_cases ha : jsCond a
    · simp only [ha, if_true, ite_true] at hl
      cases hl with
      | head => exact h a (List.mem_cons_self _ _)
      | tail _ hl2 =>
        cases hl2 with
        | head => exact timeout_line_no_newline
        | tail _ hl3 => exact ih (fun x hx => h x (List.mem_cons_of_mem a hx)) l hl3
    · simp only [ha, if_false, ite_false] at hl
      cases hl with
      | head => exact h a (List.mem_cons_self _ _)
      | tail _ hl2 => exact ih (fun x hx => h x (List.mem_cons_of_mem a hx)) l hl2

theorem fixTimeoutLines_ne_nil (ls : List (List Char)) (h : ls ≠ []) :
    fixTimeoutLines ls ≠ [] := by
  cases ls with
  | nil => exact absurd rfl h
  | cons a t =>
    unfold fixTimeoutLines
    by_cases ha : jsCond a <;> simp [ha]

theorem timeout_line_mem_fixTimeoutLines (ls : List (List Char))
    (h : ls.any jsCond = true) : timeout_minutes_line ∈ fixTimeoutLines ls := by
  induction ls with
  | nil => simp at h
  | cons a t ih =>
    rw [List.any_cons] at h
    unfold fixTimeoutLines
    by_cases ha : jsCond a
    · simp [ha]
    · have ht : t.any jsCond = true := by
        rw [Bool.or_eq_true] at h
        rcases h with h | h
        · exact absurd h ha
        · exact h
      simp only [ha, if_false, ite_false]
      exact List.mem_cons_of_mem a (ih ht)

theorem joinLines_infix_of_mem (l : List Char) (ls : List (List Char))
    (h : l ∈ ls) : l <:+: joinLines ls := by
  induction ls with
  | nil => simp at h
  | cons a t ih =>
    rcases List.mem_cons.mp h with rfl | hmem
    · cases t with
      | nil => exact List.infix_refl l
      | cons b t2 =>
        rw [joinLines_cons_cons]
        exact List.IsPrefix.isInfix (List.prefix_append l ('\n' :: joinLines (b :: t2)))
    · cases t with
      | nil => simp at hmem
      | cons b t2 =>
        rw [joinLines_cons_cons, List.append_cons]
        exact List.IsInfix.trans (ih hmem)
          ( List.IsSuffix.isInfix (List.suffix_append (a ++ ['\n']) (joinLines (b :: t2))))

/-- C6: COUNTEREXAMPLE.  `fix_timeout_missing` applied to its own output is
not a no-op: on a workflow containing a `jobs:` line the second application
inserts a second `timeout-minutes: 30` line. -/
theorem fix_timeout_missing_not_idempotent :
    fix_timeout_missing (fix_timeout_missing ("jobs:").toList)
      ≠ fix_timeout_missing ("jobs:").toList := by decide

/-- C6 (amended): the timeout fix is *not* idempotent in general — applying
it twice equals applying it once exactly when the content has no line
containing `jobs:` or `steps:` (in which case the fix is the identity);
on any content with such a trigger line every further application inserts
an additional `timeout-minutes: 30` line. -/
theorem fix_timeout_idempotent_iff (content : List Char) :
    fix_timeout_missing (fix_timeout_missing content) = fix_timeout_missing content
      ↔ hasJobsStepsLine content = false := by
  constructor
  · intro heq
    cases hj : hasJobsStepsLine content with
    | false => rfl
    | true =>
      exfalso
      unfold hasJobsStepsLine at hj
      set L0 := splitLines content with hL0
      set L1 := fixTimeoutLines L0 with hL1
      have hno0 : ∀ l ∈ L0, '\n' ∉ l := mem_splitLines_no_newline content
      have hno1 : ∀ l ∈ L1, '\n' ∉ l := fixTimeoutLines_no_newline L0 hno0
      have hne1 : L1 ≠ [] := fixTimeoutLines_ne_nil L0 (splitLines_ne_nil content)
      have hsplit1 : splitLines (fix_timeout_missing content) = L1 := by
        unfold fix_timeout_missing
        exact splitLines_joinLines L1 hno1 hne1
      have hno2 : ∀ l ∈ fixTimeoutLines L1, '\n' ∉ l :=
        fixTimeoutLines_no_newline L1 hno1
      have hne2 : fixTimeoutLines L1 ≠ [] := fixTimeoutLines_ne_nil L1 hne1
      have hsplit2 : splitLines (fix_timeout_missing (fix_timeout_missing content))
          = fixTimeoutLines L1 := by
        conv_lhs => rw [show fix_timeout_missing (fix_timeout_missing content)
          = joinLines (fixTimeoutLines (splitLines (fix_timeout_missing content))) from rfl]
        rw [hsplit1]
        exact splitLines_joinLines (fixTimeoutLines L1) hno2 hne2
      have hfix : fixTimeoutLines L1 = L1 := by
        rw [← hsplit2, ← hsplit1, heq]
      have hcount : L1.countP jsCond = L0.countP jsCond := fixTimeoutLines_countP L0
      have hlen := fixTimeoutLines_length L1
      rw [hfix, hcount] at hlen
      have hpos : 0 < L0.countP jsCond := by
        rw [List.countP_pos_iff]
        rcases List.any_eq_true.mp hj with ⟨x, hx, hxc⟩
        exact ⟨x, hx, hxc⟩
      omega
  · intro h
    have hid : fixTimeoutLines (splitLines content) = splitLines content :=
      fixTimeoutLines_id_of_no_trigger _ h
    have hfix : fix_timeout_missing content = content := by
      unfold fix_timeout_missing
      rw [hid]
      exact joinLines_splitLines content
    rw [hfix, hfix]

/-- C6 witness: the characterization applied at a concrete trigger-free
workflow content, hypothesis discharged by evaluation. -/
theorem fix_timeout_idempotent_iff_witness :
    fix_timeout_missing (fix_timeout_missing ("name: ci\non: push").toList)
      = fix_timeout_missing ("name: ci\non: push").toList :=
  (fix_timeout_idempotent_iff (("name: ci\non: push").toList)).mpr (by decide)

theorem timeout_in_fixed (content : List Char) (h : hasJobsStepsLine content = true) :
    containsSub ("timeout-minutes:").toList (fix_timeout_missing content) = true := by
  rw [containsSub_iff]
  unfold hasJobsStepsLine at h
  have hmem : timeout_minutes_line ∈ fixTimeoutLines (splitLines content) :=
    timeout_line_mem_fixTimeoutLines _ h
  have hinf := joinLines_infix_of_mem _ _ hmem
  have hpat : ("timeout-minutes:").toList <:+: timeout_minutes_line := by decide
  exact hpat.trans hinf

/-- C7: COUNTEREXAMPLE.  On a workflow artifact that lacks a timeout
declaration but has no `jobs:`/`steps:` line (here `on: push`), analysis
reports exactly one `timeout_missing` issue, yet after applying the fix and
re-analyzing, that issue is still reported — the fix inserted nothing, so
zero issues do *not* remain. -/
theorem timeout_issue_survives_fix_on_trivial_content :
    count_issues_with_rule (analyze_workflow_structure ("on: push").toList)
        ("timeout_missing") = 1
    ∧ count_issues_with_rule
        (analyze_workflow_structure (fix_timeout_missing ("on: push").toList))
        ("timeout_missing") ≠ 0 := by decide

/-- C7 (amended): for every workflow content lacking `timeout-minutes:`,
analysis reports exactly one `timeout_missing` issue; after applying the
fix and re-analyzing, zero issues with that rule remain *provided* the
content contains a line with `jobs:` or `steps:` (the insertion trigger) —
otherwise the fix is a no-op and the issue persists. -/
theorem analyze_timeout_missing_rule (content : List Char)
    (h : containsSub ("timeout-minutes:").toList content = false) :
    count_issues_with_rule (analyze_workflow_structure content) ("timeout_missing") = 1
    ∧ (hasJobsStepsLine content = true →
        count_issues_with_rule (analyze_workflow_structure (fix_timeout_missing content))
          ("timeout_missing") = 0) := by
  constructor
  · unfold analyze_workflow_structure count_issues_with_rule
    split_ifs <;> simp_all +decide [List.countP_append, List.countP_cons]
  · intro hjs
    have htm := timeout_in_fixed content hjs
    unfold analyze_workflow_structure count_issues_with_rule
    split_ifs <;> simp_all +decide [List.countP_append, List.countP_cons]

/-- C7 witness: the amended theorem applied at the concrete content
`jobs:`, all hypotheses discharged by evaluation. -/
theorem analyze_timeout_missing_rule_witness :
    count_issues_with_rule (analyze_workflow_structure ("jobs:").toList)
        ("timeout_missing") = 1
    ∧ count_issues_with_rule
        (analyze_workflow_structure (fix_timeout_missing ("jobs:").toList))
        ("timeout_missing") = 0 :=
  ⟨(analyze_timeout_missing_rule (("jobs:").toList) (by decide)).1,
   (analyze_timeout_missing_rule (("jobs:").toList) (by decide)).2 (by decide)⟩

/-- C8: COUNTEREXAMPLE.  On a project snapshot whose pubspec.yaml is absent,
the performance rule raises `NameError` and `analyze_ci_cd_failure` returns
that exception instead of a report — the failure is not degraded to an
error-severity issue naming the rule. -/
theorem rule_failure_escapes_pipeline :
    analyze_ci_cd_failure
      { workflow := some (("name: ci").toList), pubspec := none,
        test_dir_exists := true, test_files_count := 1,
        integration_test_exists := true, sensitive_hits := [],
        pub_outdated := Subproc.ran 0 [], pub_deps := Subproc.ran 0 [],
        test_coverage := Subproc.ran 0 [] }
      = Except.error (PyErr.nameError ("content")) := rfl

/-- C8 (amended): a rule failure is not degraded to an issue — it escapes
`analyze_ci_cd_failure` as an exception and no report at all is produced:
whenever pubspec.yaml is absent (and a workflow file exists),
`analyze_performance_issues` raises `NameError: content` and the pipeline
returns that exception, regardless of every other part of the snapshot.
Only the subprocess probes inside individual rules catch their own
exceptions, and the issues they produce carry severity `low`, not `error`. -/
theorem missing_pubspec_aborts_pipeline (wf : List Char) (td : Bool) (tf : ℕ)
    (it : Bool) (sh : List String) (po pd tc : Subproc) :
    analyze_ci_cd_failure
      { workflow := some wf, pubspec := none, test_dir_exists := td,
        test_files_count := tf, integration_test_exists := it,
        sensitive_hits := sh, pub_outdated := po, pub_deps := pd,
        test_coverage := tc }
      = Except.error (PyErr.nameError ("content")) := rfl

/-- C9: COUNTEREXAMPLE.  The derivation the code uses disagrees with the
claimed fail/warn/pass ladder: a single error-severity result yields
`WARNING` (not fail), and a single warning-severity result yields `PASS`
(not warn). -/
theorem report_status_differs_from_claim :
    report_status [CheckStatus.error] ≠ claimed_report_status [CheckStatus.error]
    ∧ report_status [CheckStatus.warning] ≠ claimed_report_status [CheckStatus.warning] := by
  decide

/-- C9 (amended): the overall status is `PASS` iff there is no
error-severity result, `FAIL` iff more than ten error-severity results
exist, and `WARNING` otherwise; warning-severity results never influence
the status. -/
theorem report_status_characterization (results : List CheckStatus) :
    (report_status results = ("PASS")
      ↔ (results.filter (fun r => r = CheckStatus.error)).length = 0)
    ∧ (report_status results = ("FAIL")
      ↔ 10 < (results.filter (fun r => r = CheckStatus.error)).length)
    ∧ report_status (CheckStatus.warning :: results) = report_status results := by
  refine ⟨?_, ?_, ?_⟩
  · unfold report_status
    dsimp only
    split
    · rename_i hz
      simp [hz]
    · rename_i hz
      split <;> simp +decide [hz]
  · unfold report_status
    dsimp only
    split
    · rename_i hz
      simp +decide [hz]
    · rename_i hz
      split
      · rename_i hgt
        simp +decide [hgt]
      · rename_i hgt
        simp +decide [hgt]
  · unfold report_status
    have hfil : ((CheckStatus.warning :: results).filter
        (fun r => r = CheckStatus.error)).length
        = (results.filter (fun r => r = CheckStatus.error)).length := by
      simp +decide [List.filter_cons]
    simp only [hfil]

/-- C9 witness: the characterization applied at a concrete result list,
hypotheses discharged by evaluation. -/
theorem report_status_characterization_witness :
    report_status [CheckStatus.warning, CheckStatus.success] = ("PASS") :=
  (report_status_characterization [CheckStatus.warning, CheckStatus.success]).1.mpr
    (by decide)

/-- C1 witness: the amended theorem applied at a concrete append sequence. -/
theorem metrics_equal_fold_before_truncation_witness :
    stats_match_fold (replay
      [(⟨0, ("flutter build apk"), ("Build"), true, 2, none⟩ : AppendInput)]) :=
  metrics_equal_fold_before_truncation
    [(⟨0, ("flutter build apk"), ("Build"), true, 2, none⟩ : AppendInput)]

/-- C5 witness: the amended theorem applied at a concrete append sequence
containing a failed run of nonzero duration. -/
theorem gui_average_ignores_failed_durations_witness :
    (replay ([(⟨0, ("flutter build apk"), ("Build"), false, 7, none⟩ : AppendInput)].map
        scrub_failed)).build_stats.average_build_time
      = (replay [(⟨0, ("flutter build apk"), ("Build"), false, 7,
          none⟩ : AppendInput)]).build_stats.average_build_time :=
  gui_average_ignores_failed_durations
    [(⟨0, ("flutter build apk"), ("Build"), false, 7, none⟩ : AppendInput)]

/-- C8 witness: the amended theorem applied at a concrete snapshot. -/
theorem missing_pubspec_aborts_pipeline_witness :
    analyze_ci_cd_failure
      (⟨some (("jobs:").toList), none, false, 0, false, [],
        Subproc.raised ("timeout"), Subproc.raised ("timeout"),
        Subproc.raised ("timeout")⟩ : AnalyzerEnv)
      = Except.error (PyErr.nameError ("content")) :=
  missing_pubspec_aborts_pipeline (("jobs:").toList) false 0 false []
    (Subproc.raised ("timeout")) (Subproc.raised ("timeout"))
    (Subproc.raised ("timeout"))

/-- C10 witness: the counter increment facts applied at a concrete state
and append input. -/
theorem record_build_attempt_counter_invariant_witness :
    (applyInput initial_state
        (⟨0, ("flutter test"), ("Test"), false, 3, none⟩ : AppendInput)).build_stats.total_builds
      = initial_state.build_stats.total_builds + 1 :=
  (record_build_attempt_counter_invariant.1 initial_state
    (⟨0, ("flutter test"), ("Test"), false, 3, none⟩ : AppendInput)).1
